import Mathlib

/-!
Verification of the ocm2 band-processing pipeline (src/ocm2/ocm2.py).

Pixel values are modelled by `Ocm2.RVal`, an IEEE-754-style extended value
(finite real, plus infinity, minus infinity, or NaN), since the source works
on numpy floating-point arrays where division by zero yields an infinity or
NaN and every comparison with NaN is false.  Arrays are modelled as total
functions from a flattened pixel index to `RVal`.  Fallible operations
(Python exceptions: list index out of range, assertion failure) are modelled
with `Option`.
-/

namespace Ocm2

/-- IEEE-754-style extended value: a finite real, +∞, −∞, or NaN. -/
inductive RVal where
  | fin : ℝ → RVal
  | pinf : RVal
  | ninf : RVal
  | nan : RVal

namespace RVal

/-- IEEE addition on extended values (numpy `+`). -/
noncomputable def add : RVal → RVal → RVal
  | nan, _ => nan
  | fin a, fin b => fin (a + b)
  | fin _, pinf => pinf
  | fin _, ninf => ninf
  | fin _, nan => nan
  | pinf, fin _ => pinf
  | ninf, fin _ => ninf
  | pinf, pinf => pinf
  | ninf, ninf => ninf
  | pinf, ninf => nan
  | ninf, pinf => nan
  | pinf, nan => nan
  | ninf, nan => nan

/-- IEEE subtraction on extended values (numpy `-`). -/
noncomputable def sub : RVal → RVal → RVal
  | nan, _ => nan
  | fin a, fin b => fin (a - b)
  | fin _, pinf => ninf
  | fin _, ninf => pinf
  | fin _, nan => nan
  | pinf, fin _ => pinf
  | ninf, fin _ => ninf
  | pinf, ninf => pinf
  | ninf, pinf => ninf
  | pinf, pinf => nan
  | ninf, ninf => nan
  | pinf, nan => nan
  | ninf, nan => nan

/-- IEEE multiplication on extended values (numpy `*`). -/
noncomputable def mul : RVal → RVal → RVal
  | nan, _ => nan
  | fin a, fin b => fin (a * b)
  | fin a, pinf => if 0 < a then pinf else if a < 0 then ninf else nan
  | fin a, ninf => if 0 < a then ninf else if a < 0 then pinf else nan
  | fin _, nan => nan
  | pinf, fin b => if 0 < b then pinf else if b < 0 then ninf else nan
  | ninf, fin b => if 0 < b then ninf else if b < 0 then pinf else nan
  | pinf, pinf => pinf
  | pinf, ninf => ninf
  | ninf, pinf => ninf
  | ninf, ninf => pinf
  | pinf, nan => nan
  | ninf, nan => nan

/-- IEEE division on extended values (numpy `/` with a positive-zero
denominator convention: a nonzero finite numerator over zero gives a signed
infinity, zero over zero gives NaN). -/
noncomputable def div : RVal → RVal → RVal
  | nan, _ => nan
  | fin a, fin b =>
      if b = 0 then (if a = 0 then nan else if 0 < a then pinf else ninf)
      else fin (a / b)
  | fin _, pinf => fin 0
  | fin _, ninf => fin 0
  | fin _, nan => nan
  | pinf, fin b => if 0 ≤ b then pinf else ninf
  | ninf, fin b => if 0 ≤ b then ninf else pinf
  | pinf, pinf => nan
  | pinf, ninf => nan
  | ninf, pinf => nan
  | ninf, ninf => nan
  | pinf, nan => nan
  | ninf, nan => nan

/-- IEEE strict less-than as a boolean (numpy `<`): any comparison involving
NaN is false. -/
noncomputable def ltB : RVal → RVal → Bool
  | nan, _ => false
  | fin a, fin b => decide (a < b)
  | fin _, pinf => true
  | fin _, ninf => false
  | fin _, nan => false
  | pinf, fin _ => false
  | ninf, fin _ => true
  | pinf, pinf => false
  | ninf, ninf => false
  | ninf, pinf => true
  | pinf, ninf => false
  | pinf, nan => false
  | ninf, nan => false

/-- IEEE strict greater-than as a boolean (numpy `>`). -/
noncomputable def gtB (a b : RVal) : Bool := ltB b a

end RVal

/-- A raster grid: flattened pixel index to extended value. -/
def Grid : Type := ℕ → RVal

/-- The fixed 8-entry solar irradiance table `esol` of `calc_toa`. -/
noncomputable def esol : List ℝ :=
  [1.72815, 1.85211, 1.9721, 1.86697, 1.82781, 1.65765, 1.2897, 0.952073]

/-- Degrees to radians, as `math.radians`. -/
noncomputable def radians (deg : ℝ) : ℝ := deg * Real.pi / 180

/-- `calc_toa(rad, sun_elev, band_no)`: top-of-atmosphere reflectance
`(np.pi * 1 * rad * 10) / (esol[band_no] * 1000 * math.sin(math.radians(sun_elev)))`.
A band number outside the table raises `IndexError` in Python, modelled as
`none`. -/
noncomputable def calc_toa (rad : Grid) (sun_elev : ℝ) (band_no : ℕ) : Option Grid :=
  esol[band_no]?.map fun e => fun i =>
    RVal.div
      (RVal.mul (RVal.mul (RVal.mul (RVal.fin Real.pi) (RVal.fin 1)) (rad i)) (RVal.fin 10))
      (RVal.fin (e * 1000 * Real.sin (radians sun_elev)))

/-- The first masked assignment of `toa_convert`: `toa[toa < 0] = 0.0`. -/
noncomputable def clamp_lt0 (v : RVal) : RVal :=
  if RVal.ltB v (RVal.fin 0) then RVal.fin 0 else v

/-- The second masked assignment of `toa_convert`: `toa[toa > 2] = 0.0`. -/
noncomputable def clamp_gt2 (v : RVal) : RVal :=
  if RVal.gtB v (RVal.fin 2) then RVal.fin 0 else v

/-- `toa_convert`: the per-band reflectance conversion, a `calc_toa`
followed by the two sequential masked clamps (first the `< 0` clamp, then
the `> 2` clamp), written pixelwise. -/
noncomputable def toa_convert (rad : Grid) (sun_elev : ℝ) (band_no : ℕ) : Option Grid :=
  (calc_toa rad sun_elev band_no).map fun toa => fun i => clamp_gt2 (clamp_lt0 (toa i))

/-- The per-file dispatch of `do_ref`: the band number parsed from the file
name is compared with 7; bands with number at most 7 are converted with
`toa_convert`, larger band numbers are copied through with their pixel
values unchanged. -/
noncomputable def do_ref_band (band_no : ℕ) (rad : Grid) (sun_elev : ℝ) : Option Grid :=
  if band_no ≤ 7 then toa_convert rad sun_elev band_no else some rad

/-- One reflectance file as the cloud-mask stage sees it: the band number
parsed from its file name, an abstract rasterio profile token, and its
pixel grid. -/
structure Band where
  no : ℕ
  profile : ℕ
  px : Grid

/-- Element-wise numpy array addition. -/
noncomputable def grid_add (a b : Grid) : Grid := fun i => RVal.add (a i) (b i)

/-- The accumulation loop of `sum_toa`: each further file must have the
profile of the first file (`assert profile == r.profile`, an assertion
failure is modelled as `none`), and its grid is added element-wise. -/
noncomputable def sum_toa_loop (p : ℕ) (acc : Grid) : List Band → Option Grid
  | [] => some acc
  | f :: rest => if f.profile = p then sum_toa_loop p (grid_add acc f.px) rest else none

/-- `sum_toa(filelist)`: reads `filelist[0]` (an empty list raises
`IndexError`, modelled as `none`) and folds the remaining grids onto it. -/
noncomputable def sum_toa (files : List Band) : Option Grid :=
  match files with
  | [] => none
  | b :: rest => sum_toa_loop b.profile b.px rest

/-- The masked assignment `band[band == 0.0] = np.nan`: every pixel equal
to 0.0 becomes NaN, every other pixel (including NaN and infinities, which
never compare equal to 0.0) is kept. -/
noncomputable def nan_zero (g : Grid) : Grid := fun i =>
  match g i with
  | RVal.fin x => if x = 0 then RVal.nan else RVal.fin x
  | v => v

/-- `toa_other(filelist)`: takes the files at positions 0, 1 and 6 of the
file list (`[filelist[check] for check in [0,1,6]]`; a list shorter than 7
raises `IndexError`, modelled as `none`), replaces zeros of the second and
seventh grids by NaN, and returns the pair (difference, ratio) with
difference = band2 − band1 and ratio = band2 / band7. -/
noncomputable def toa_other (files : List Band) : Option (Grid × Grid) :=
  match files[0]?, files[1]?, files[6]? with
  | some one, some two, some seven =>
      let band2 := nan_zero two.px
      let band7 := nan_zero seven.px
      some (fun i => RVal.sub (band2 i) (one.px i), fun i => RVal.div (band2 i) (band7 i))
  | _, _, _ => none

/-- The per-pixel decision rule of `cloudmask_ocm`:
`np.where((toa_sum > 2.7) & (toa_ratio > 1.5) & (toa_diff < 0), 1, 0)`. -/
noncomputable def cloudmask_px (s r d : RVal) : ℕ :=
  if RVal.gtB s (RVal.fin 2.7) && RVal.gtB r (RVal.fin 1.5) && RVal.ltB d (RVal.fin 0)
  then 1 else 0

/-- `cloudmask_ocm(inpf, filelist)`: computes the band sum via `sum_toa`
and the difference/ratio pair via `toa_other`, then applies the decision
rule pixelwise; a failure of either stage aborts before any mask is
written, modelled as `none`. -/
noncomputable def cloudmask_ocm (files : List Band) : Option (ℕ → ℕ) :=
  match sum_toa files, toa_other files with
  | some s, some dr => some (fun i => cloudmask_px (s i) (dr.2 i) (dr.1 i))
  | _, _ => none

/-- The six entries of a GDAL geotransform as `GetGeoTransform` returns
them: origin x, pixel width, a rotation term, origin y, a rotation term,
pixel height. -/
structure GeoTransform where
  x0 : ℝ
  pw : ℝ
  rot1 : ℝ
  y0 : ℝ
  rot2 : ℝ
  ph : ℝ

/-- `GetExtent(ds)`: with `xmax = xmin + width * xpixel` and
`ymin = ymax + height * ypixel`, returns
`(xmin, ymax), (xmax, ymax), (xmax, ymin), (xmin, ymin)`. -/
noncomputable def GetExtent (gt : GeoTransform) (width height : ℕ) :
    (ℝ × ℝ) × (ℝ × ℝ) × (ℝ × ℝ) × (ℝ × ℝ) :=
  let xmin := gt.x0
  let ymax := gt.y0
  let xmax := gt.x0 + (width : ℝ) * gt.pw
  let ymin := gt.y0 + (height : ℝ) * gt.ph
  ((xmin, ymax), (xmax, ymax), (xmax, ymin), (xmin, ymin))

/-- The eight corner metadata fields and the sun elevation angle read by
`metaInfo` from the HDF metadata dictionary. -/
structure HdfMeta where
  ulLon : ℝ
  ulLat : ℝ
  urLon : ℝ
  urLat : ℝ
  llLon : ℝ
  llLat : ℝ
  lrLon : ℝ
  lrLat : ℝ
  sunElev : ℝ

/-- The tuple `metaInfo` returns: `(ulx, uly), (urx, ury), (brx, bry),
(blx, bly), (sun_elev)` — upper left, upper right, lower right, lower
left, sun elevation. -/
def Meta : Type := (ℝ × ℝ) × (ℝ × ℝ) × (ℝ × ℝ) × (ℝ × ℝ) × ℝ

/-- `metaInfo(path, hdf_file)` as a function of the metadata fields. -/
noncomputable def metaInfo (m : HdfMeta) : Meta :=
  ((m.ulLon, m.ulLat), (m.urLon, m.urLat), (m.lrLon, m.lrLat), (m.llLon, m.llLat),
    m.sunElev)

/-- One ground control point as `gdal.GCP(x, y, z, pixel, line)` is built:
geographic x, geographic y, elevation, pixel column, pixel row. -/
structure GCP where
  gx : ℝ
  gy : ℝ
  elev : ℝ
  px : ℝ
  py : ℝ

/-- The ground-control-point list of `Georeference`: the raster's extent
corners with coordinates replaced by their absolute values
(`ext_pos = [(abs(val[0]), abs(val[1])) for val in ext]`), each paired by
position with the corresponding geographic corner of the metadata tuple,
with elevation 0. -/
noncomputable def Georeference_gcps (gt : GeoTransform) (width height : ℕ)
    (meta : Meta) : List GCP :=
  let ext := GetExtent gt width height
  let e0 := (|ext.1.1|, |ext.1.2|)
  let e1 := (|ext.2.1.1|, |ext.2.1.2|)
  let e2 := (|ext.2.2.1.1|, |ext.2.2.1.2|)
  let e3 := (|ext.2.2.2.1|, |ext.2.2.2.2|)
  [⟨meta.1.1, meta.1.2, 0, e0.1, e0.2⟩,
   ⟨meta.2.1.1, meta.2.1.2, 0, e1.1, e1.2⟩,
   ⟨meta.2.2.1.1, meta.2.2.1.2, 0, e2.1, e2.2⟩,
   ⟨meta.2.2.2.1.1, meta.2.2.2.1.2, 0, e3.1, e3.2⟩]

/-- Modelled from the spec for comparison with `calc_toa` (claim C1): the
same reflectance formula but with the solar-irradiance table indexed by
`band − 1` as the spec's words state, instead of by the band number
itself as the source does. -/
noncomputable def calc_toa_spec_c1 (rad : Grid) (sun_elev : ℝ) (band_no : ℕ) :
    Option Grid :=
  esol[band_no - 1]?.map fun e => fun i =>
    RVal.div
      (RVal.mul (RVal.mul (RVal.mul (RVal.fin Real.pi) (RVal.fin 1)) (rad i)) (RVal.fin 10))
      (RVal.fin (e * 1000 * Real.sin (radians sun_elev)))

/-- Modelled from the spec for comparison with `toa_other` (claim C4): the
same derived pair but with the three input bands selected by their band
numbers 1, 2 and 7 as the spec's words state, instead of by their
positions 0, 1 and 6 in the file list as the source does. -/
noncomputable def toa_other_spec_c4 (files : List Band) : Option (Grid × Grid) :=
  match files.find? (fun b => b.no == 1), files.find? (fun b => b.no == 2),
      files.find? (fun b => b.no == 7) with
  | some one, some two, some seven =>
      let band2 := nan_zero two.px
      let band7 := nan_zero seven.px
      some (fun i => RVal.sub (band2 i) (one.px i), fun i => RVal.div (band2 i) (band7 i))
  | _, _, _ => none

/-! ## Helper lemmas -/

theorem sin_radians_90 : Real.sin (radians 90) = 1 := by
  have h : radians 90 = Real.pi / 2 := by unfold radians; ring
  rw [h, Real.sin_pi_div_two]

theorem sin_radians_0 : Real.sin (radians 0) = 0 := by
  have h : radians 0 = 0 := by unfold radians; ring
  rw [h, Real.sin_zero]

theorem fin_ne_pinf (a : ℝ) : RVal.fin a ≠ RVal.pinf := fun h => RVal.noConfusion h

theorem fin_ne_ninf (a : ℝ) : RVal.fin a ≠ RVal.ninf := fun h => RVal.noConfusion h

theorem nan_ne_pinf : RVal.nan ≠ RVal.pinf := fun h => RVal.noConfusion h

theorem nan_ne_ninf : RVal.nan ≠ RVal.ninf := fun h => RVal.noConfusion h

theorem clamp_not_inf (v : RVal) :
    clamp_gt2 (clamp_lt0 v) ≠ RVal.pinf ∧ clamp_gt2 (clamp_lt0 v) ≠ RVal.ninf := by
  cases v with
  | fin a =>
      by_cases h1 : a < 0
      · norm_num [clamp_lt0, clamp_gt2, RVal.ltB, RVal.gtB, h1]
        exact ⟨fin_ne_pinf _, fin_ne_ninf _⟩
      · by_cases h2 : 2 < a <;>
          norm_num [clamp_lt0, clamp_gt2, RVal.ltB, RVal.gtB, h1, h2] <;>
          exact ⟨fin_ne_pinf _, fin_ne_ninf _⟩
  | pinf =>
      norm_num [clamp_lt0, clamp_gt2, RVal.ltB, RVal.gtB]
      exact ⟨fin_ne_pinf _, fin_ne_ninf _⟩
  | ninf =>
      norm_num [clamp_lt0, clamp_gt2, RVal.ltB, RVal.gtB]
      exact ⟨fin_ne_pinf _, fin_ne_ninf _⟩
  | nan =>
      norm_num [clamp_lt0, clamp_gt2, RVal.ltB, RVal.gtB]
      exact ⟨nan_ne_pinf, nan_ne_ninf⟩

theorem gtB_fin_iff (v : RVal) (c : ℝ) (hp : v ≠ RVal.pinf) (hn : v ≠ RVal.ninf) :
    RVal.gtB v (RVal.fin c) = true ↔ ∃ x, v = RVal.fin x ∧ c < x := by
  cases v with
  | fin a => simp [RVal.gtB, RVal.ltB]
  | pinf => exact absurd rfl hp
  | ninf => exact absurd rfl hn
  | nan => simp [RVal.gtB, RVal.ltB]

theorem ltB_fin_iff (v : RVal) (c : ℝ) (hp : v ≠ RVal.pinf) (hn : v ≠ RVal.ninf) :
    RVal.ltB v (RVal.fin c) = true ↔ ∃ x, v = RVal.fin x ∧ x < c := by
  cases v with
  | fin a => simp [RVal.ltB]
  | pinf => exact absurd rfl hp
  | ninf => exact absurd rfl hn
  | nan => simp [RVal.ltB]

/-! ## Claims -/

/-- C9: the four computed image corners are upper-left = (x0, y0),
upper-right = (x0 + W·pw, y0), lower-right = (x0 + W·pw, y0 + H·ph),
lower-left = (x0, y0 + H·ph), returned in UL, UR, LR, LL order;
`metaInfo` returns the scene's geographic corners in the same UL, UR, LR,
LL order; and `Georeference` pairs corner i with geographic corner i. -/
theorem c9_corners (gt : GeoTransform) (W H : ℕ) (m : HdfMeta) :
    GetExtent gt W H =
      ((gt.x0, gt.y0), (gt.x0 + (W : ℝ) * gt.pw, gt.y0),
        (gt.x0 + (W : ℝ) * gt.pw, gt.y0 + (H : ℝ) * gt.ph),
        (gt.x0, gt.y0 + (H : ℝ) * gt.ph)) ∧
    metaInfo m = ((m.ulLon, m.ulLat), (m.urLon, m.urLat), (m.lrLon, m.lrLat),
      (m.llLon, m.llLat), m.sunElev) ∧
    Georeference_gcps gt W H (metaInfo m) =
      [⟨m.ulLon, m.ulLat, 0, |gt.x0|, |gt.y0|⟩,
       ⟨m.urLon, m.urLat, 0, |gt.x0 + (W : ℝ) * gt.pw|, |gt.y0|⟩,
       ⟨m.lrLon, m.lrLat, 0, |gt.x0 + (W : ℝ) * gt.pw|, |gt.y0 + (H : ℝ) * gt.ph|⟩,
       ⟨m.llLon, m.llLat, 0, |gt.x0|, |gt.y0 + (H : ℝ) * gt.ph|⟩] :=
  ⟨rfl, rfl, rfl⟩

/-- C8: every ground control point built by `Georeference` has a
non-negative pixel-x and pixel-y coordinate, whatever the sign of the
computed geometric corner values, and elevation exactly 0. -/
theorem c8_gcp_nonneg (gt : GeoTransform) (W H : ℕ) (meta : Meta) :
    ∀ g ∈ Georeference_gcps gt W H meta, 0 ≤ g.px ∧ 0 ≤ g.py ∧ g.elev = 0 := by
  intro g hg
  simp only [Georeference_gcps, GetExtent, List.mem_cons, List.not_mem_nil, or_false] at hg
  rcases hg with h | h | h | h <;> subst h <;>
    exact ⟨abs_nonneg _, abs_nonneg _, rfl⟩

/-- C8 witness: a raster with negative corner coordinates still yields a
ground control point with non-negative pixel coordinates and elevation 0. -/
theorem c8_witness :
    0 ≤ (GCP.mk (-1) 5 0 |(-3 : ℝ)| |(-4 : ℝ)|).px ∧
    0 ≤ (GCP.mk (-1) 5 0 |(-3 : ℝ)| |(-4 : ℝ)|).py ∧
    (GCP.mk (-1) 5 0 |(-3 : ℝ)| |(-4 : ℝ)|).elev = 0 :=
  c8_gcp_nonneg ⟨-3, 1, 0, -4, 0, -1⟩ 2 2 ((-1, 5), (1, 5), (1, 3), (-1, 3), 45) _
    (by simp [Georeference_gcps, GetExtent])

/-- C10: for every band number at most 7, the solar-irradiance table has
8 entries, the lookup `esol[band_no]` is in bounds so the conversion
returns a result, and the reflectance dispatch `do_ref` hands such a band
number to the converter (only after the ≤ 7 check). -/
theorem c10_inbounds (band_no : ℕ) (h : band_no ≤ 7) (rad : Grid) (sun_elev : ℝ) :
    esol.length = 8 ∧ esol[band_no]?.isSome = true ∧
    (toa_convert rad sun_elev band_no).isSome = true ∧
    do_ref_band band_no rad sun_elev = toa_convert rad sun_elev band_no := by
  have hlen : esol.length = 8 := by simp [esol]
  have hlt : band_no < esol.length := by omega
  have hsome : esol[band_no]?.isSome = true := by
    rw [List.getElem?_eq_getElem hlt]; rfl
  obtain ⟨e, he⟩ := Option.isSome_iff_exists.mp hsome
  refine ⟨hlen, hsome, ?_, by simp [do_ref_band, h]⟩
  simp [toa_convert, calc_toa, he]

/-- C10 witness: band number 7 is in bounds and is dispatched to the
converter. -/
theorem c10_witness :
    esol.length = 8 ∧ esol[7]?.isSome = true ∧
    (toa_convert (fun _ => RVal.fin 1) 45 7).isSome = true ∧
    do_ref_band 7 (fun _ => RVal.fin 1) 45 = toa_convert (fun _ => RVal.fin 1) 45 7 :=
  c10_inbounds 7 (by norm_num) (fun _ => RVal.fin 1) 45

/-- C7: with fewer than seven reflectance bands in the file list, the
cloud-mask stage fails (the positional access `filelist[6]` is out of
range) and no mask is produced. -/
theorem c7_incomplete_set (files : List Band) (h : files.length < 7) :
    cloudmask_ocm files = none := by
  have h6 : files[6]? = none := by
    rw [List.getElem?_eq_none_iff]; omega
  have hto : toa_other files = none := by
    unfold toa_other
    rw [h6]
    rcases files[0]? with _ | a
    · rfl
    · rcases files[1]? with _ | b <;> rfl
  unfold cloudmask_ocm
  rw [hto]
  rcases sum_toa files with _ | s <;> rfl

/-- C7 witness: six converted bands yield no cloud mask. -/
theorem c7_witness :
    cloudmask_ocm
      [⟨1, 0, fun _ => RVal.fin 1⟩, ⟨2, 0, fun _ => RVal.fin 1⟩,
       ⟨3, 0, fun _ => RVal.fin 1⟩, ⟨4, 0, fun _ => RVal.fin 1⟩,
       ⟨5, 0, fun _ => RVal.fin 1⟩, ⟨6, 0, fun _ => RVal.fin 1⟩] = none :=
  c7_incomplete_set _ (by simp)

/-- The file collection of `do_cldmsk`: starting from an empty list, every
file of the reflectance folder whose parsed band number is at most 7 is
appended, in listing order, and the resulting list is what `cloudmask_ocm`
receives. -/
def do_cldmsk_filelist (files : List Band) : List Band :=
  files.filter (fun b => decide (b.no ≤ 7))

/-- The eight reflectance files of an 8-subdataset product as the
extractor names them (`band0` … `band7`, 0-based): parsed band numbers 0
through 7, one shared profile, each grid constant 1. -/
noncomputable def c3files : List Band :=
  [⟨0, 0, fun _ => RVal.fin 1⟩, ⟨1, 0, fun _ => RVal.fin 1⟩,
   ⟨2, 0, fun _ => RVal.fin 1⟩, ⟨3, 0, fun _ => RVal.fin 1⟩,
   ⟨4, 0, fun _ => RVal.fin 1⟩, ⟨5, 0, fun _ => RVal.fin 1⟩,
   ⟨6, 0, fun _ => RVal.fin 1⟩, ⟨7, 0, fun _ => RVal.fin 1⟩]

/-- Modelled from the spec for comparison with the band-sum stage (claim
C3): the element-wise sum of exactly the seven converted grids whose band
numbers are 1 through 7, and no others. -/
noncomputable def sum_toa_spec_c3 (files : List Band) : Option Grid :=
  sum_toa (files.filter (fun b => decide (1 ≤ b.no) && decide (b.no ≤ 7)))

/-- C3 counterexample: on the 8-subdataset product the collection step of
`do_cldmsk` keeps all eight files band0 … band7 (every parsed number is at
most 7), so the band-sum stage sums eight grids — with constant pixel
value 1 it returns 8 — while the sum of exactly the seven grids of bands
numbered 1 through 7, as the claim states, is 7. -/
theorem c3_counterexample :
    (do_cldmsk_filelist c3files).length = 8 ∧
    (sum_toa (do_cldmsk_filelist c3files)).map (fun g => g 0) = some (RVal.fin 8) ∧
    (sum_toa_spec_c3 c3files).map (fun g => g 0) = some (RVal.fin 7) := by
  refine ⟨by simp [do_cldmsk_filelist, c3files], ?_, ?_⟩
  · have hf : do_cldmsk_filelist c3files = c3files := by
      simp [do_cldmsk_filelist, c3files]
    rw [hf]
    simp only [c3files, sum_toa, sum_toa_loop, if_true, grid_add, Option.map_some',
      Option.some.injEq, RVal.add]
    norm_num
  · have hf : c3files.filter (fun b => decide (1 ≤ b.no) && decide (b.no ≤ 7)) =
        [⟨1, 0, fun _ => RVal.fin 1⟩, ⟨2, 0, fun _ => RVal.fin 1⟩,
         ⟨3, 0, fun _ => RVal.fin 1⟩, ⟨4, 0, fun _ => RVal.fin 1⟩,
         ⟨5, 0, fun _ => RVal.fin 1⟩, ⟨6, 0, fun _ => RVal.fin 1⟩,
         ⟨7, 0, fun _ => RVal.fin 1⟩] := by
      simp [c3files]
    rw [sum_toa_spec_c3, hf]
    simp only [sum_toa, sum_toa_loop, if_true, grid_add, Option.map_some',
      Option.some.injEq, RVal.add]
    norm_num

/-- C3 amended: the band-sum stage sums every grid that `do_cldmsk`
collects — each file of the list whose parsed band number is at most 7,
which under the extractor's 0-based naming of an 8-subdataset product is
the eight files band0 through band7 (instrument bands 1 through 8), not
seven — each collected grid contributing exactly once, whenever all
collected inputs share the profile of the first. -/
theorem c3_sum_collected (files : List Band) (b0 b1 b2 b3 b4 b5 b6 b7 : Band)
    (hf : files = [b0, b1, b2, b3, b4, b5, b6, b7])
    (hn0 : b0.no = 0) (hn1 : b1.no = 1) (hn2 : b2.no = 2) (hn3 : b3.no = 3)
    (hn4 : b4.no = 4) (hn5 : b5.no = 5) (hn6 : b6.no = 6) (hn7 : b7.no = 7)
    (hp1 : b1.profile = b0.profile) (hp2 : b2.profile = b0.profile)
    (hp3 : b3.profile = b0.profile) (hp4 : b4.profile = b0.profile)
    (hp5 : b5.profile = b0.profile) (hp6 : b6.profile = b0.profile)
    (hp7 : b7.profile = b0.profile) :
    (∀ b, b ∈ do_cldmsk_filelist files ↔ b ∈ files ∧ b.no ≤ 7) ∧
    sum_toa (do_cldmsk_filelist files) =
      some (fun i =>
        RVal.add (RVal.add (RVal.add (RVal.add (RVal.add (RVal.add (RVal.add
          (b0.px i) (b1.px i)) (b2.px i)) (b3.px i)) (b4.px i)) (b5.px i))
          (b6.px i)) (b7.px i)) := by
  constructor
  · intro b
    simp [do_cldmsk_filelist, List.mem_filter]
  · have hsel : do_cldmsk_filelist files = [b0, b1, b2, b3, b4, b5, b6, b7] := by
      rw [hf]
      simp [do_cldmsk_filelist, List.filter, hn0, hn1, hn2, hn3, hn4, hn5, hn6, hn7]
    rw [hsel]
    simp only [sum_toa, sum_toa_loop, hp1, hp2, hp3, hp4, hp5, hp6, hp7, if_true]
    rfl

/-- C3 witness: on the eight concrete extractor-named files, the
collection keeps a file exactly when its number is at most 7 and the sum
is the eight-fold element-wise sum. -/
theorem c3_witness :
    ((⟨0, 0, fun _ => RVal.fin 1⟩ : Band) ∈ do_cldmsk_filelist c3files ↔
      (⟨0, 0, fun _ => RVal.fin 1⟩ : Band) ∈ c3files ∧
        (⟨0, 0, fun _ => RVal.fin 1⟩ : Band).no ≤ 7) ∧
    sum_toa (do_cldmsk_filelist c3files) =
      some (fun _ =>
        RVal.add (RVal.add (RVal.add (RVal.add (RVal.add (RVal.add (RVal.add
          (RVal.fin 1) (RVal.fin 1)) (RVal.fin 1)) (RVal.fin 1)) (RVal.fin 1))
          (RVal.fin 1)) (RVal.fin 1)) (RVal.fin 1)) := by
  have h := c3_sum_collected c3files
    ⟨0, 0, fun _ => RVal.fin 1⟩ ⟨1, 0, fun _ => RVal.fin 1⟩
    ⟨2, 0, fun _ => RVal.fin 1⟩ ⟨3, 0, fun _ => RVal.fin 1⟩
    ⟨4, 0, fun _ => RVal.fin 1⟩ ⟨5, 0, fun _ => RVal.fin 1⟩
    ⟨6, 0, fun _ => RVal.fin 1⟩ ⟨7, 0, fun _ => RVal.fin 1⟩
    rfl rfl rfl rfl rfl rfl rfl rfl rfl rfl rfl rfl rfl rfl rfl rfl
  exact ⟨h.1 _, h.2⟩

/-- C5 counterexample: at sun elevation exactly 0° (radiance 1, band
number 0) the conversion does not fail: the zero denominator makes the raw
reflectance +∞, and the `> 2` clamp then writes the value 0.0, so a result
is returned normally rather than a fatal numeric error being raised. -/
theorem c5_counterexample :
    (calc_toa (fun _ => RVal.fin 1) 0 0).map (fun g => g 0) = some RVal.pinf ∧
    (toa_convert (fun _ => RVal.fin 1) 0 0).map (fun g => g 0) = some (RVal.fin 0) := by
  have hden : (1.72815 : ℝ) * 1000 * Real.sin (radians 0) = 0 := by
    rw [sin_radians_0]; ring
  have hnum : (0 : ℝ) < Real.pi * 1 * 1 * 10 := by positivity
  have hc : (calc_toa (fun _ => RVal.fin 1) 0 0).map (fun g => g 0) = some RVal.pinf := by
    simp only [calc_toa, esol, List.getElem?_cons_zero, Option.map_some', Option.map_map]
    simp only [RVal.mul, RVal.div, hden, Option.map_some', Function.comp]
    norm_num [hnum, hnum.ne']
    simp [Real.pi_ne_zero, Real.pi_pos]
  refine ⟨hc, ?_⟩
  simp only [toa_convert, Option.map_map]
  have : ∀ g, (calc_toa (fun _ => RVal.fin 1) 0 0) = some g → g 0 = RVal.pinf := by
    intro g hg
    rw [hg] at hc
    simpa using hc
  rcases hcal : calc_toa (fun _ => RVal.fin 1) 0 0 with _ | g
  · rw [hcal] at hc; simp at hc
  · have hg0 := this g hcal
    simp [Function.comp, hg0, clamp_lt0, clamp_gt2, RVal.ltB, RVal.gtB]

/-- C5 amended: at sun elevation exactly 0° or 180° (in exact real
arithmetic both give a zero sine) the conversion of an in-model band does
not raise: it returns a grid, and after the clamps that grid contains no
infinity at any pixel. -/
theorem c5_no_infinity (rad : Grid) (sun_elev : ℝ) (band_no : ℕ)
    (_hse : sun_elev = 0 ∨ sun_elev = 180) (hb : band_no ≤ 7) :
    ∃ g, toa_convert rad sun_elev band_no = some g ∧
      ∀ i, g i ≠ RVal.pinf ∧ g i ≠ RVal.ninf := by
  have hlt : band_no < esol.length := by simp [esol]; omega
  rcases hcal : calc_toa rad sun_elev band_no with _ | G
  · exfalso
    have : esol[band_no]?.isSome = true := by
      rw [List.getElem?_eq_getElem hlt]; rfl
    obtain ⟨e, he⟩ := Option.isSome_iff_exists.mp this
    simp [calc_toa, he] at hcal
  · exact ⟨fun i => clamp_gt2 (clamp_lt0 (G i)), by simp [toa_convert, hcal],
      fun i => clamp_not_inf (G i)⟩

/-- C5 witness: band 0, radiance 1, sun elevation 0°. -/
theorem c5_witness :
    ∃ g, toa_convert (fun _ => RVal.fin 1) 0 0 = some g ∧
      ∀ i, g i ≠ RVal.pinf ∧ g i ≠ RVal.ninf :=
  c5_no_infinity (fun _ => RVal.fin 1) 0 0 (Or.inl rfl) (by norm_num)

/-- C6: writing through `toa_convert`, a raw reflectance pixel strictly
below 0 is written as exactly 0.0, a raw pixel strictly above 2 is also
written as exactly 0.0 (not capped at 2), and a raw pixel inside [0, 2] is
written unchanged. -/
theorem c6_clamp (rad : Grid) (sun_elev : ℝ) (band_no : ℕ) (g h : Grid) (i : ℕ) (r : ℝ)
    (hg : calc_toa rad sun_elev band_no = some g)
    (hh : toa_convert rad sun_elev band_no = some h)
    (hr : g i = RVal.fin r) :
    (r < 0 → h i = RVal.fin 0) ∧ (2 < r → h i = RVal.fin 0) ∧
    (0 ≤ r → r ≤ 2 → h i = RVal.fin r) := by
  have hhi : h i = clamp_gt2 (clamp_lt0 (g i)) := by
    unfold toa_convert at hh
    rw [hg] at hh
    simp only [Option.map_some', Option.some.injEq] at hh
    exact (congrFun hh i).symm
  rw [hhi, hr]
  refine ⟨?_, ?_, ?_⟩
  · intro hlt
    norm_num [clamp_lt0, clamp_gt2, RVal.ltB, RVal.gtB, hlt]
  · intro hgt
    have hnl : ¬ r < 0 := by linarith
    norm_num [clamp_lt0, clamp_gt2, RVal.ltB, RVal.gtB, hnl, hgt]
  · intro h0 h2
    have hnl : ¬ r < 0 := not_lt.mpr h0
    have hng : ¬ 2 < r := not_lt.mpr h2
    norm_num [clamp_lt0, clamp_gt2, RVal.ltB, RVal.gtB, hnl, hng]

/-- C6 witness: band 0 at sun elevation 90°, radiance 0, has raw
reflectance 0, inside [0, 2], and is written unchanged as 0. -/
theorem c6_witness :
    (toa_convert (fun _ => RVal.fin 0) 90 0).map (fun h => h 0) = some (RVal.fin 0) := by
  rcases hcal : calc_toa (fun _ => RVal.fin 0) 90 0 with _ | G
  · exfalso
    simp [calc_toa, esol] at hcal
  · have hh : toa_convert (fun _ => RVal.fin 0) 90 0 =
        some (fun i => clamp_gt2 (clamp_lt0 (G i))) := by
      simp [toa_convert, hcal]
    have hG0 : G 0 = RVal.fin 0 := by
      have hden : (1.72815 : ℝ) * 1000 * Real.sin (radians 90) = 1728.15 := by
        rw [sin_radians_90]; norm_num
      have h1 : calc_toa (fun _ => RVal.fin 0) 90 0 = some (fun _ => RVal.fin 0) := by
        simp only [calc_toa, esol, List.getElem?_cons_zero, Option.map_some',
          RVal.mul, RVal.div, hden, Option.some.injEq]
        funext i
        norm_num
      rw [h1] at hcal
      exact (congrFun (Option.some.inj hcal) 0).symm
    have key := (c6_clamp (fun _ => RVal.fin 0) 90 0 G _ 0 0 hcal hh hG0).2.2
      le_rfl (by norm_num)
    rw [hh]
    simpa using key

/-- C1 counterexample: for the extracted band with parsed number 1,
radiance 1 and sun elevation 90°, the conversion of the source divides by
`esol[1] = 1.85211` (the table entry at the band number itself), not by
`esol[0] = 1.72815` (the entry at band − 1) as the claim states, so the
two formulas give different reflectances. -/
theorem c1_counterexample :
    (calc_toa (fun _ => RVal.fin 1) 90 1).map (fun g => g 0) ≠
      (calc_toa_spec_c1 (fun _ => RVal.fin 1) 90 1).map (fun g => g 0) := by
  have d1 : (1.85211 : ℝ) * 1000 * Real.sin (radians 90) = 1852.11 := by
    rw [sin_radians_90]; norm_num
  have d2 : (1.72815 : ℝ) * 1000 * Real.sin (radians 90) = 1728.15 := by
    rw [sin_radians_90]; norm_num
  have hne1 : (1852.11 : ℝ) ≠ 0 := by norm_num
  have hne2 : (1728.15 : ℝ) ≠ 0 := by norm_num
  intro h
  simp only [calc_toa, calc_toa_spec_c1, esol, Nat.sub_self, List.getElem?_cons_zero,
    List.getElem?_cons_succ, Option.map_some', RVal.mul, RVal.div, d1, d2, hne1, hne2,
    if_false, Option.some.injEq, RVal.fin.injEq] at h
  have h2 : Real.pi * 1 * 1 * 10 / 1852.11 = Real.pi * 1 * 1 * 10 / 1728.15 := h
  rw [div_eq_div_iff hne1 hne2] at h2
  have h3 := mul_left_cancel₀ (show Real.pi * 1 * 1 * 10 ≠ 0 by positivity) h2
  norm_num at h3

/-- C1 amended: for every extracted band with parsed band number at most
7, the conversion computes reflectance = (π · rad · 10) / (E[band] · 1000 ·
sin(sun elevation in radians)), where the fixed 8-entry table E is indexed
by the parsed band number itself (the extractor names bands 0-based, so
entry k is the irradiance of instrument band k + 1); every band with
parsed number greater than 7 bypasses conversion and is copied through
with its pixel values unchanged. -/
theorem c1_amended_formula (rad : Grid) (sun_elev : ℝ) (band_no : ℕ) :
    (∀ e g, band_no ≤ 7 → esol[band_no]? = some e →
      e * 1000 * Real.sin (radians sun_elev) ≠ 0 →
      calc_toa rad sun_elev band_no = some g →
      ∀ i r, rad i = RVal.fin r →
        g i = RVal.fin
          ((Real.pi * 1 * r * 10) / (e * 1000 * Real.sin (radians sun_elev)))) ∧
    (7 < band_no → do_ref_band band_no rad sun_elev = some rad) := by
  constructor
  · intro e g _ he hden hg i r hr
    have hge : g = fun i =>
        RVal.div
          (RVal.mul (RVal.mul (RVal.mul (RVal.fin Real.pi) (RVal.fin 1)) (rad i))
            (RVal.fin 10))
          (RVal.fin (e * 1000 * Real.sin (radians sun_elev))) := by
      rw [calc_toa, he] at hg
      simp only [Option.map_some', Option.some.injEq] at hg
      exact hg.symm
    rw [hge]
    simp only [hr, RVal.mul, RVal.div]
    rw [if_neg hden]
  · intro h7
    have hn : ¬ band_no ≤ 7 := by omega
    simp [do_ref_band, hn]

/-- C1 witness: band number 1 at sun elevation 90° and radiance 5 gets
reflectance (π · 1 · 5 · 10) / (1.85211 · 1000 · sin(radians 90)), and
band number 9 is copied through unchanged. -/
theorem c1_witness :
    (∃ g, calc_toa (fun _ => RVal.fin 5) 90 1 = some g ∧
      g 0 = RVal.fin
        ((Real.pi * 1 * 5 * 10) / ((1.85211 : ℝ) * 1000 * Real.sin (radians 90)))) ∧
    do_ref_band 9 (fun _ => RVal.fin 5) 90 = some (fun _ => RVal.fin 5) := by
  constructor
  · rcases hcal : calc_toa (fun _ => RVal.fin 5) 90 1 with _ | G
    · exfalso
      simp [calc_toa, esol] at hcal
    · refine ⟨G, rfl, ?_⟩
      have hden : (1.85211 : ℝ) * 1000 * Real.sin (radians 90) ≠ 0 := by
        rw [sin_radians_90]; norm_num
      exact (c1_amended_formula (fun _ => RVal.fin 5) 90 1).1 1.85211 G (by norm_num)
        (by simp [esol]) hden hcal 0 5 rfl
  · exact (c1_amended_formula (fun _ => RVal.fin 5) 90 9).2 (by norm_num)

/-- A file list for the derived-pair stage in an unsorted directory
order: the file of band number 2 (constant pixel value 2) sits at position
0 and the file of band number 1 (constant pixel value 1) at position 1;
band number 7 (constant pixel value 4) sits at position 6. -/
noncomputable def c4files : List Band :=
  [⟨2, 0, fun _ => RVal.fin 2⟩, ⟨1, 0, fun _ => RVal.fin 1⟩,
   ⟨3, 0, fun _ => RVal.fin 3⟩, ⟨4, 0, fun _ => RVal.fin 3⟩,
   ⟨5, 0, fun _ => RVal.fin 3⟩, ⟨6, 0, fun _ => RVal.fin 3⟩,
   ⟨7, 0, fun _ => RVal.fin 4⟩]

/-- C4 counterexample: on a file list in unsorted directory order, the
source's derived difference (computed from the files at positions 0 and 1)
is 1 − 2 = −1, while the difference computed from the bands identified by
their band numbers, as the claim states, is 2 − 1 = 1. -/
theorem c4_counterexample :
    (toa_other c4files).map (fun dr => dr.1 0) = some (RVal.fin (-1)) ∧
    (toa_other_spec_c4 c4files).map (fun dr => dr.1 0) = some (RVal.fin 1) := by
  constructor
  · simp only [c4files, toa_other, List.getElem?_cons_zero, List.getElem?_cons_succ,
      Option.map_some', nan_zero, RVal.sub]
    norm_num
  · have h2 : (2 : ℝ) ≠ 0 := by norm_num
    simp [c4files, toa_other_spec_c4, List.find?, nan_zero, RVal.sub, h2]
    norm_num

/-- C4 amended: the derived pair is computed from the files at positions
0, 1 and 6 of the file list (not keyed by band number): difference =
grid at position 1 − grid at position 0 and ratio = grid at position 1 /
grid at position 6, where every pixel equal to 0.0 in the grids at
positions 1 and 6 is replaced by not-a-number before the subtraction and
the division. -/
theorem c4_positional_pair (files : List Band) (b0 b1 b6 : Band)
    (h0 : files[0]? = some b0) (h1 : files[1]? = some b1)
    (h6 : files[6]? = some b6) :
    toa_other files =
      some (fun i => RVal.sub (nan_zero b1.px i) (b0.px i),
            fun i => RVal.div (nan_zero b1.px i) (nan_zero b6.px i)) := by
  simp [toa_other, h0, h1, h6]

/-- C4 witness: the positional selection applied to the concrete file
list. -/
theorem c4_witness :
    toa_other c4files =
      some (fun i => RVal.sub (nan_zero (fun _ => RVal.fin 1) i) ((fun _ => RVal.fin 2) i),
            fun i => RVal.div (nan_zero (fun _ => RVal.fin 1) i)
              (nan_zero (fun _ => RVal.fin 4) i)) :=
  c4_positional_pair c4files ⟨2, 0, fun _ => RVal.fin 2⟩ ⟨1, 0, fun _ => RVal.fin 1⟩
    ⟨7, 0, fun _ => RVal.fin 4⟩ rfl rfl rfl

/-- C2: at every pixel whose band-sum, ratio and difference values are
not infinities (as holds for grids produced by the clamped conversion),
the cloud-mask value is 0 or 1; it is 0 whenever any of the three is
not-a-number (a NaN comparison is false); and it is 1 exactly when the
sum exceeds 2.7, the ratio exceeds 1.5 and the difference is below 0. -/
theorem c2_decision_rule (files : List Band) (s : Grid) (dr : Grid × Grid) (m : ℕ → ℕ)
    (hs : sum_toa files = some s) (hdr : toa_other files = some dr)
    (hm : cloudmask_ocm files = some m) (i : ℕ)
    (hsp : s i ≠ RVal.pinf) (hsn : s i ≠ RVal.ninf)
    (hrp : dr.2 i ≠ RVal.pinf) (hrn : dr.2 i ≠ RVal.ninf)
    (hdp : dr.1 i ≠ RVal.pinf) (hdn : dr.1 i ≠ RVal.ninf) :
    (m i = 0 ∨ m i = 1) ∧
    ((s i = RVal.nan ∨ dr.2 i = RVal.nan ∨ dr.1 i = RVal.nan) → m i = 0) ∧
    (m i = 1 ↔
      (∃ sv, s i = RVal.fin sv ∧ 2.7 < sv) ∧
      (∃ rv, dr.2 i = RVal.fin rv ∧ 1.5 < rv) ∧
      (∃ dv, dr.1 i = RVal.fin dv ∧ dv < 0)) := by
  have hmi : m i = cloudmask_px (s i) (dr.2 i) (dr.1 i) := by
    unfold cloudmask_ocm at hm
    rw [hs, hdr] at hm
    simp only [Option.some.injEq] at hm
    exact (congrFun hm i).symm
  have hbool : m i = 1 ↔
      (RVal.gtB (s i) (RVal.fin 2.7) && RVal.gtB (dr.2 i) (RVal.fin 1.5) &&
        RVal.ltB (dr.1 i) (RVal.fin 0)) = true := by
    rw [hmi]
    unfold cloudmask_px
    by_cases hc : (RVal.gtB (s i) (RVal.fin 2.7) && RVal.gtB (dr.2 i) (RVal.fin 1.5) &&
        RVal.ltB (dr.1 i) (RVal.fin 0)) = true
    · simp [hc]
    · simp [hc]
  have hiff : m i = 1 ↔
      (∃ sv, s i = RVal.fin sv ∧ 2.7 < sv) ∧
      (∃ rv, dr.2 i = RVal.fin rv ∧ 1.5 < rv) ∧
      (∃ dv, dr.1 i = RVal.fin dv ∧ dv < 0) := by
    rw [hbool, Bool.and_eq_true, Bool.and_eq_true,
      gtB_fin_iff _ _ hsp hsn, gtB_fin_iff _ _ hrp hrn, ltB_fin_iff _ _ hdp hdn]
    tauto
  refine ⟨?_, ?_, hiff⟩
  · rw [hmi]
    unfold cloudmask_px
    by_cases hc : (RVal.gtB (s i) (RVal.fin 2.7) && RVal.gtB (dr.2 i) (RVal.fin 1.5) &&
        RVal.ltB (dr.1 i) (RVal.fin 0)) = true
    · right; simp [hc]
    · left; simp [hc]
  · intro hnan
    rw [hmi]
    unfold cloudmask_px
    rcases hnan with h | h | h <;>
      simp [h, RVal.gtB, RVal.ltB]

/-- The seven constant reflectance grids of the C2 witness, all sharing
one profile: pixel values 1, 0.9, 0.2, 0.2, 0.2, 0.2 and 0.5. -/
noncomputable def c2files : List Band :=
  [⟨1, 0, fun _ => RVal.fin 1⟩, ⟨2, 0, fun _ => RVal.fin 0.9⟩,
   ⟨3, 0, fun _ => RVal.fin 0.2⟩, ⟨4, 0, fun _ => RVal.fin 0.2⟩,
   ⟨5, 0, fun _ => RVal.fin 0.2⟩, ⟨6, 0, fun _ => RVal.fin 0.2⟩,
   ⟨7, 0, fun _ => RVal.fin 0.5⟩]

/-- The band sum of the C2 witness grids. -/
noncomputable def c2sum : Grid := fun _ =>
  RVal.add (RVal.add (RVal.add (RVal.add (RVal.add (RVal.add (RVal.fin 1)
    (RVal.fin 0.9)) (RVal.fin 0.2)) (RVal.fin 0.2)) (RVal.fin 0.2)) (RVal.fin 0.2))
    (RVal.fin 0.5)

/-- The derived difference of the C2 witness grids. -/
noncomputable def c2diff : Grid := fun i =>
  RVal.sub (nan_zero (fun _ => RVal.fin 0.9) i) ((fun _ => RVal.fin 1) i)

/-- The derived ratio of the C2 witness grids. -/
noncomputable def c2ratio : Grid := fun i =>
  RVal.div (nan_zero (fun _ => RVal.fin 0.9) i) (nan_zero (fun _ => RVal.fin 0.5) i)

/-- The cloud mask of the C2 witness grids. -/
noncomputable def c2mask : ℕ → ℕ := fun i =>
  cloudmask_px (c2sum i) (c2ratio i) (c2diff i)

/-- C2 witness: on the concrete grids, with sum 3.2 > 2.7, ratio
0.9 / 0.5 = 1.8 > 1.5 and difference 0.9 − 1 < 0, the mask pixel is 1. -/
theorem c2_witness : cloudmask_ocm c2files = some c2mask ∧ c2mask 0 = 1 := by
  have hs : sum_toa c2files = some c2sum := by
    simp only [c2files, sum_toa, sum_toa_loop, if_true]
    rfl
  have hdr : toa_other c2files = some (c2diff, c2ratio) := by
    simp only [c2files, toa_other, List.getElem?_cons_zero, List.getElem?_cons_succ]
    rfl
  have hm : cloudmask_ocm c2files = some c2mask := by
    unfold cloudmask_ocm
    rw [hs, hdr]
    rfl
  refine ⟨hm, ?_⟩
  have h09 : nan_zero (fun _ => RVal.fin 0.9) 0 = RVal.fin 0.9 := by
    norm_num [nan_zero]
  have h05 : nan_zero (fun _ => RVal.fin 0.5) 0 = RVal.fin 0.5 := by
    norm_num [nan_zero]
  have hsv : c2sum 0 = RVal.fin 3.2 := by
    simp only [c2sum, RVal.add]
    norm_num
  have hdv : c2diff 0 = RVal.fin (-0.1) := by
    simp only [c2diff, h09, RVal.sub]
    norm_num
  have hrv : c2ratio 0 = RVal.fin 1.8 := by
    simp only [c2ratio, h09, h05, RVal.div]
    norm_num
  exact (c2_decision_rule c2files c2sum (c2diff, c2ratio) c2mask hs hdr hm 0
      (by rw [hsv]; exact fin_ne_pinf _) (by rw [hsv]; exact fin_ne_ninf _)
      (by show c2ratio 0 ≠ RVal.pinf; rw [hrv]; exact fin_ne_pinf _)
      (by show c2ratio 0 ≠ RVal.ninf; rw [hrv]; exact fin_ne_ninf _)
      (by show c2diff 0 ≠ RVal.pinf; rw [hdv]; exact fin_ne_pinf _)
      (by show c2diff 0 ≠ RVal.ninf; rw [hdv]; exact fin_ne_ninf _)).2.2.mpr
    ⟨⟨3.2, hsv, by norm_num⟩, ⟨1.8, hrv, by norm_num⟩, ⟨-0.1, hdv, by norm_num⟩⟩

end Ocm2
